import Mathlib

/-!
Verification of the room/session coordination layer of a WebSocket chess
relay (`chess_game/consumers.py`).  The chess rules library (python-chess),
the external UCI engine and the MongoDB store are opaque collaborators; they
are embedded as parameters (`Rules`, `Env`) while the consumer's own control
flow (`connect`, `disconnect`, `receive`, `send_game_state`, `bot_move`) is
translated faithfully from the source.
-/

/-- Side to move, as reported by the rules library (`chess.WHITE` / `chess.BLACK`). -/
inductive Side where
  | white
  | black
deriving DecidableEq, Repr

/-- Interface of the opaque chess rules library (python-chess `Board`):
`init` is `chess.Board()`, `push_san` applies a SAN move returning `none` on
`ValueError`, `fen`/`set_fen` serialize and restore positions, `turn` is
`board.turn`, `is_game_over` is `board.is_game_over()`.  The two proof fields
are the library's documented contract: a fresh board has white to move, and
`set_fen` restores exactly the serialized position it is given. -/
structure Rules (B F : Type) where
  init : B
  push_san : B → String → Option B
  fen : B → F
  set_fen : B → F → B
  turn : B → Side
  is_game_over : B → Bool
  turn_init : turn init = Side.white
  fen_set_fen : ∀ b f, fen (set_fen b f) = f

/-- Failure kinds of the external engine bridge (spec section 4.3). -/
inductive EngineError where
  | unavailable
  | timeout
  | noLegalMove
deriving DecidableEq, Repr

/-- Failure of the persistence layer (pymongo raising on `update_one`). -/
inductive StoreError where
  | failure
deriving DecidableEq, Repr

/-- An uncaught exception propagating out of the `receive` handler. -/
inductive RunErr where
  | store (e : StoreError)
  | engine (e : EngineError)
deriving DecidableEq, Repr

/-- Which path `receive` took: the early return on `ValueError` (rejected
move) or the successful application path. -/
inductive Outcome where
  | rejected
  | applied
deriving DecidableEq, Repr

/-- External effects during one `receive` call: whether `update_one`
succeeds, and the composite engine interaction of `bot_move`
(`popen_uci` + `engine.play` + `board.push(result.move)`), which either
yields the board after the engine's reply or fails. -/
structure Env (B : Type) where
  storeOk : Bool
  engine : B → Except EngineError B

/-- The `games` collection: `room_name ↦ fen`. -/
def Store (F : Type) : Type := String → Option F

/-- `update_one({"room_name": room}, {"$set": {"fen": f}}, upsert=True)`. -/
def putFen {F : Type} (st : Store F) (room : String) (f : F) : Store F :=
  fun r => if r = room then some f else st r

/-- State owned by one consumer instance: its `room_name` and its own
in-memory `self.board`. -/
structure SessionState (B : Type) where
  room : String
  board : B
deriving DecidableEq

/-- Payload of `send_game_state`: `{'fen': board.fen(), 'turn': ...}`. -/
structure GameMsg (F : Type) where
  fen : F
  turn : Side
deriving DecidableEq

/-- The message `send_game_state` builds from a board. -/
def gameState {B F : Type} (R : Rules B F) (b : B) : GameMsg F :=
  { fen := R.fen b, turn := R.turn b }

/-- Result of one `receive` call on one consumer: the consumer's state
afterwards, the store afterwards, the messages written to this consumer's
own socket (in order), whether `bot_move` was entered, and either the path
taken or the uncaught exception that propagated. -/
structure RecvResult (B F : Type) where
  session : SessionState B
  store : Store F
  sent : List (GameMsg F)
  bot : Bool
  result : Except RunErr Outcome

/-- `ChessGameConsumer.receive`, with the JSON `move` field already
extracted.  Faithful control flow: `push_san` inside try/except (early
return on `ValueError`), then `update_one` (an exception here propagates
with `self.board` already mutated), then `send_game_state` over this
consumer's socket only, then `bot_move` when `board.turn == chess.BLACK`
(no terminality check).  `bot_move` runs the engine, pushes its move,
persists and sends again; an engine exception propagates uncaught. -/
def receive {B F : Type} (R : Rules B F) (env : Env B)
    (s : SessionState B) (st : Store F) (move : String) : RecvResult B F :=
  match R.push_san s.board move with
  | none =>
    { session := s, store := st, sent := [], bot := false,
      result := .ok .rejected }
  | some b1 =>
    if env.storeOk then
      let st1 := putFen st s.room (R.fen b1)
      if R.turn b1 = Side.black then
        match env.engine b1 with
        | .error e =>
          { session := { s with board := b1 }, store := st1,
            sent := [gameState R b1], bot := true,
            result := .error (.engine e) }
        | .ok b2 =>
          { session := { s with board := b2 },
            store := putFen st1 s.room (R.fen b2),
            sent := [gameState R b1, gameState R b2], bot := true,
            result := .ok .applied }
      else
        { session := { s with board := b1 }, store := st1,
          sent := [gameState R b1], bot := false, result := .ok .applied }
    else
      { session := { s with board := b1 }, store := st, sent := [],
        bot := false, result := .error (.store .failure) }

/-- Connection handles: one per consumer instance. -/
def SessionId : Type := Nat

instance : DecidableEq SessionId := instDecidableEqNat

instance : OfNat SessionId n := ⟨(n : Nat)⟩

/-- The whole service: channel-layer group membership (`group_add` /
`group_discard`), the live consumer instances, each socket's outbound
messages, and the shared `games` collection. -/
@[ext]
structure SystemState (B F : Type) where
  groups : String → SessionId → Bool
  sessions : SessionId → Option (SessionState B)
  outbox : SessionId → List (GameMsg F)
  store : Store F

/-- The channel-layer group name for a room: `f'chess_game_{room_name}'`. -/
def roomGroup (room : String) : String := "chess_game_" ++ room

/-- `ChessGameConsumer.connect` for a fresh consumer `sid` on `room`:
`group_add`, accept, `self.board = chess.Board()`, `find_one` on the store
and `set_fen` when a document exists, then `send_game_state` to this
consumer's own socket. -/
def connect {B F : Type} (R : Rules B F) (st : SystemState B F)
    (sid : SessionId) (room : String) : SystemState B F :=
  let board :=
    match st.store room with
    | some f => R.set_fen R.init f
    | none => R.init
  { groups := fun g k =>
      if g = roomGroup room ∧ k = sid then true else st.groups g k,
    sessions := fun k =>
      if k = sid then some { room := room, board := board }
      else st.sessions k,
    outbox := fun k =>
      if k = sid then st.outbox k ++ [gameState R board] else st.outbox k,
    store := st.store }

/-- `ChessGameConsumer.disconnect`: `group_discard` only; the consumer's
board and the store are untouched. -/
def disconnect {B F : Type} (st : SystemState B F) (sid : SessionId) :
    SystemState B F :=
  match st.sessions sid with
  | none => st
  | some s =>
    { st with groups := fun g k =>
        if g = roomGroup s.room ∧ k = sid then false else st.groups g k }

/-- `receive` lifted to the whole service: the websocket frame arrives on
consumer `sid`, which runs its handler against its own state and the shared
store.  Returns the new system state and the handler's outcome or uncaught
exception. -/
def systemReceive {B F : Type} (R : Rules B F) (env : Env B)
    (st : SystemState B F) (sid : SessionId) (move : String) :
    SystemState B F × Except RunErr Outcome :=
  match st.sessions sid with
  | none => (st, .ok .rejected)
  | some s =>
    let r := receive R env s st.store move
    ({ groups := st.groups,
       sessions := fun k => if k = sid then some r.session else st.sessions k,
       outbox := fun k =>
         if k = sid then st.outbox k ++ r.sent else st.outbox k,
       store := r.store }, r.result)

/-- Modelled from the spec (section 4.1 `apply_player_move` under the room's
access guard): serialized application of a sequence of submitted moves
against a single shared room position, each move validated against the
position left by the previous one, illegal moves rejected without mutation.
The source has no such shared position; this definition exists to be
compared with the source's per-session behaviour. -/
def specApplySerialized {B F : Type} (R : Rules B F) (b : B)
    (moves : List String) : B :=
  moves.foldl
    (fun pos m =>
      match R.push_san pos m with
      | some b1 => b1
      | none => pos) b

/-- The empty service state. -/
def emptySystem (B F : Type) : SystemState B F :=
  { groups := fun _ _ => false, sessions := fun _ => none,
    outbox := fun _ => [], store := fun _ => none }

/-- A concrete instance of the rules interface for evaluating the consumer
code on closed inputs: a board is the list of moves played, only "e4" and
"d4" are legal and only from the fresh board, the side to move alternates
(white on even ply, as in chess), and no position is terminal.  Boards
serialize as themselves. -/
def toyRules : Rules (List String) (List String) :=
  { init := [],
    push_san := fun b m =>
      if b.isEmpty && (m == "e4" || m == "d4") then some (b ++ [m]) else none,
    fen := fun b => b,
    set_fen := fun _ f => f,
    turn := fun b => if b.length % 2 == 0 then Side.white else Side.black,
    is_game_over := fun _ => false,
    turn_init := rfl,
    fen_set_fen := fun _ _ => rfl }

/-- Like `toyRules` but the side to move is always white, so a player move
never hands the turn to the bot. -/
def toyRulesW : Rules (List String) (List String) :=
  { toyRules with turn := fun _ => Side.white, turn_init := rfl }

/-- Like `toyRules` but every position after one move is terminal: the
analogue of a player move that ends the game (as checkmate by white does in
chess, e.g. Qg7# from `7k/5Q2/5K2/8/8/8/8/8 w - - 0 1`, after which
`board.turn == chess.BLACK` and `board.is_game_over()` both hold). -/
def toyRulesMate : Rules (List String) (List String) :=
  { toyRules with is_game_over := fun b => b.length == 1 }

/-- An environment where the store succeeds and the engine echoes the
position back. -/
def envOk : Env (List String) :=
  { storeOk := true, engine := fun b => .ok b }

/-- An environment where the store succeeds and the engine times out. -/
def envTimeout : Env (List String) :=
  { storeOk := true, engine := fun _ => .error .timeout }

/-- An environment where `update_one` raises. -/
def envStoreFail : Env (List String) :=
  { storeOk := false, engine := fun b => .ok b }

/-- `disconnect` never touches the consumer instances. -/
theorem disconnect_sessions {B F : Type} (st : SystemState B F)
    (sid : SessionId) : (disconnect st sid).sessions = st.sessions := by
  unfold disconnect
  cases st.sessions sid <;> rfl

/-- `disconnect` never touches the store. -/
theorem disconnect_store {B F : Type} (st : SystemState B F)
    (sid : SessionId) : (disconnect st sid).store = st.store := by
  unfold disconnect
  cases st.sessions sid <;> rfl

/-- `disconnect` never touches any socket's outbox. -/
theorem disconnect_outbox {B F : Type} (st : SystemState B F)
    (sid : SessionId) : (disconnect st sid).outbox = st.outbox := by
  unfold disconnect
  cases st.sessions sid <;> rfl

/-- The consumer's state, the messages it sends, whether it enters
`bot_move` and its outcome after `receive` do not depend on the current
contents of the store: `receive` only writes to the store, never reads it. -/
theorem receive_store_indep {B F : Type} (R : Rules B F) (env : Env B)
    (s : SessionState B) (move : String) (st1 st2 : Store F) :
    ((receive R env s st1 move).session, (receive R env s st1 move).sent,
      (receive R env s st1 move).bot, (receive R env s st1 move).result) =
    ((receive R env s st2 move).session, (receive R env s st2 move).sent,
      (receive R env s st2 move).bot, (receive R env s st2 move).result) := by
  unfold receive
  cases hp : R.push_san s.board move with
  | none => rfl
  | some b1 =>
    cases ho : env.storeOk
    · rfl
    · by_cases ht : R.turn b1 = Side.black
      · simp only [ht]
        cases he : env.engine b1 <;> rfl
      · simp only [if_neg ht]
        rfl

/-- Claim C3: for every position and every move that is illegal for that
position (`push_san` raises `ValueError`), applying the move leaves the
whole system unchanged — the submitting consumer's board and side-to-move,
every other consumer, every outbox and the store — and the handler takes
the rejection path (early return, no broadcast). -/
theorem c3_illegal_move_is_noop {B F : Type} (R : Rules B F) (env : Env B)
    (st : SystemState B F) (sid : SessionId) (s : SessionState B)
    (move : String) (hs : st.sessions sid = some s)
    (hill : R.push_san s.board move = none) :
    (systemReceive R env st sid move).1 = st ∧
    (systemReceive R env st sid move).2 = Except.ok Outcome.rejected := by
  constructor
  · unfold systemReceive
    simp only [hs]
    unfold receive
    simp only [hill]
    apply SystemState.ext
    · rfl
    · funext k
      by_cases hk : k = sid
      · subst hk
        simp [hs]
      · simp [hk]
    · funext k
      by_cases hk : k = sid
      · subst hk
        simp
      · simp [hk]
    · rfl
  · simp [systemReceive, hs, receive, hill]

/-- Witness for C3: in a two-session room at the starting position, the
string "zz" is not a legal move, and submitting it changes nothing. -/
def sys2W : SystemState (List String) (List String) :=
  connect toyRulesW
    (connect toyRulesW (emptySystem (List String) (List String)) 0 "r") 1 "r"

theorem c3_illegal_move_is_noop_witness :
    (systemReceive toyRulesW envOk sys2W 0 "zz").1 = sys2W ∧
    (systemReceive toyRulesW envOk sys2W 0 "zz").2 =
      Except.ok Outcome.rejected :=
  c3_illegal_move_is_noop toyRulesW envOk sys2W 0
    { room := "r", board := [] } "zz" rfl rfl

/-- Claim C7: every connected session holds its own in-memory board
(`self.board`); a move received on one session never changes the in-memory
position held by any other session, nor any other session's socket, even
when both are attached to the same room. -/
theorem c7_move_mutates_only_own_session {B F : Type} (R : Rules B F)
    (env : Env B) (st : SystemState B F) (sid sid' : SessionId)
    (move : String) (h : sid' ≠ sid) :
    (systemReceive R env st sid move).1.sessions sid' = st.sessions sid' ∧
    (systemReceive R env st sid move).1.outbox sid' = st.outbox sid' := by
  unfold systemReceive
  cases hs : st.sessions sid with
  | none => exact ⟨rfl, rfl⟩
  | some s => exact ⟨by simp [h], by simp [h]⟩

/-- Witness for C7: session 0 plays "e4" in the two-session room; session 1
(same room) keeps its own board and receives nothing. -/
theorem c7_move_mutates_only_own_session_witness :
    (systemReceive toyRulesW envOk sys2W 0 "e4").1.sessions 1 =
      sys2W.sessions 1 ∧
    (systemReceive toyRulesW envOk sys2W 0 "e4").1.outbox 1 =
      sys2W.outbox 1 :=
  c7_move_mutates_only_own_session toyRulesW envOk sys2W 0 1 "e4"
    (by decide)

/-- Claim C8: a join on a room id with no stored position initializes the
session's board to `chess.Board()` — the canonical starting position — and
the rules library guarantees that board has white (the first player) to
move; the joining session is sent that starting state. -/
theorem c8_fresh_room_starts_initial {B F : Type} (R : Rules B F)
    (st : SystemState B F) (sid : SessionId) (room : String)
    (h : st.store room = none) :
    (connect R st sid room).sessions sid =
      some { room := room, board := R.init } ∧
    R.turn R.init = Side.white ∧
    (connect R st sid room).outbox sid =
      st.outbox sid ++ [gameState R R.init] := by
  refine ⟨?_, R.turn_init, ?_⟩ <;> simp [connect, h]

/-- Witness for C8: connecting to room "r" of the empty service yields the
starting board with white to move. -/
theorem c8_fresh_room_starts_initial_witness :
    (connect toyRules (emptySystem (List String) (List String)) 0
        "r").sessions 0 =
      some { room := "r", board := toyRules.init } ∧
    toyRules.turn toyRules.init = Side.white ∧
    (connect toyRules (emptySystem (List String) (List String)) 0
        "r").outbox 0 =
      (emptySystem (List String) (List String)).outbox 0 ++
        [gameState toyRules toyRules.init] :=
  c8_fresh_room_starts_initial toyRules
    (emptySystem (List String) (List String)) 0 "r" rfl

/-- Claim C9: a join on a room id with stored position `f` immediately sends
exactly that stored position (as restored by `set_fen`) to the joining
session, writes nothing to the store, and changes no other session's board
or socket — so the room's position and side-to-move are untouched. -/
theorem c9_join_existing_room_sends_stored {B F : Type} (R : Rules B F)
    (st : SystemState B F) (sid k : SessionId) (room : String) (f : F)
    (h : st.store room = some f) (hk : k ≠ sid) :
    (connect R st sid room).outbox sid =
      st.outbox sid ++
        [{ fen := f, turn := R.turn (R.set_fen R.init f) }] ∧
    (connect R st sid room).store = st.store ∧
    (connect R st sid room).sessions k = st.sessions k ∧
    (connect R st sid room).outbox k = st.outbox k := by
  refine ⟨?_, rfl, ?_, ?_⟩ <;> simp [connect, h, hk, gameState, R.fen_set_fen]

/-- Witness for C9: joining room "r" whose stored position is the board
`["e4"]` sends that position (not the starting one) and leaves the store
and the other session untouched. -/
def sysStored : SystemState (List String) (List String) :=
  { emptySystem (List String) (List String) with
    store := fun r => if r = "r" then some ["e4"] else none }

theorem c9_join_existing_room_sends_stored_witness :
    (connect toyRules sysStored 0 "r").outbox 0 =
      sysStored.outbox 0 ++
        [{ fen := ["e4"],
           turn := toyRules.turn (toyRules.set_fen toyRules.init ["e4"]) }] ∧
    (connect toyRules sysStored 0 "r").store = sysStored.store ∧
    (connect toyRules sysStored 0 "r").sessions 1 = sysStored.sessions 1 ∧
    (connect toyRules sysStored 0 "r").outbox 1 = sysStored.outbox 1 :=
  c9_join_existing_room_sends_stored toyRules sysStored 0 1 "r" ["e4"]
    (by simp [sysStored, emptySystem]) (by decide)

/-- Claim C10: `disconnect` is a pure `group_discard`: calling it twice for
the same (already-removed) session equals calling it once, it is a total
function (it cannot raise), and it never touches any session's board, any
outbox, or the stored position. -/
theorem c10_disconnect_idempotent_no_effect {B F : Type}
    (st : SystemState B F) (sid : SessionId) :
    disconnect (disconnect st sid) sid = disconnect st sid ∧
    (disconnect st sid).sessions = st.sessions ∧
    (disconnect st sid).store = st.store ∧
    (disconnect st sid).outbox = st.outbox := by
  refine ⟨?_, disconnect_sessions st sid, disconnect_store st sid,
    disconnect_outbox st sid⟩
  cases h : st.sessions sid with
  | none =>
    have hst : disconnect st sid = st := by
      unfold disconnect
      rw [h]
    rw [hst, hst]
  | some s =>
    have key : ∀ t : SystemState B F, t.sessions sid = some s →
        disconnect t sid =
          { t with groups := fun g k =>
              if g = roomGroup s.room ∧ k = sid then false
              else t.groups g k } := by
      intro t ht
      unfold disconnect
      rw [ht]
    have h2 : (disconnect st sid).sessions sid = some s := by
      rw [disconnect_sessions, h]
    rw [key (disconnect st sid) h2, key st h]
    apply SystemState.ext
    · funext g k
      by_cases hgk : g = roomGroup s.room ∧ k = sid
      · simp [hgk]
      · simp [hgk]
    · rfl
    · rfl
    · rfl

/-- Claim C1 (code bug, evaluated at the failing input): in a room whose
channel group holds sessions 0 and 1, a successfully applied move from
session 0 appends the new game state to session 0's socket only —
`send_game_state` uses `self.send`, never `group_send` — so session 1,
although in the room's group, receives nothing. -/
theorem c1_state_sent_only_to_mover :
    sys2W.groups (roomGroup "r") 0 = true ∧
    sys2W.groups (roomGroup "r") 1 = true ∧
    (systemReceive toyRulesW envOk sys2W 0 "e4").2 =
      Except.ok Outcome.applied ∧
    (systemReceive toyRulesW envOk sys2W 0 "e4").1.outbox 0 =
      sys2W.outbox 0 ++ [gameState toyRulesW ["e4"]] ∧
    (systemReceive toyRulesW envOk sys2W 0 "e4").1.outbox 1 =
      sys2W.outbox 1 := by
  refine ⟨by decide, by decide, rfl, rfl, rfl⟩

/-- Counterexample to claim C2: sessions 0 and 1 share room "r" from the
starting position.  Session 0's "e4" and session 1's "d4" each apply and
commit — against two different boards.  "d4" is illegal on the position
"e4" left behind (it is black's turn there), so under guarded serialized
application against one shared room position the final position would be
`["e4"]`; the code instead leaves session 0 at `["e4"]`, session 1 at
`["d4"]`, and the store at `["d4"]` — two in-flight move applications for
one room, not serialized by any guard. -/
def c2run : SystemState (List String) (List String) :=
  (systemReceive toyRulesW envOk
    (systemReceive toyRulesW envOk sys2W 0 "e4").1 1 "d4").1

theorem c2_no_serialization_counterexample :
    c2run.sessions 0 = some { room := "r", board := ["e4"] } ∧
    c2run.sessions 1 = some { room := "r", board := ["d4"] } ∧
    c2run.store "r" = some ["d4"] ∧
    toyRulesW.push_san ["e4"] "d4" = none ∧
    specApplySerialized toyRulesW toyRulesW.init ["e4", "d4"] = ["e4"] ∧
    (["d4"] : List String) ≠ ["e4"] := by
  refine ⟨rfl, rfl, by decide, rfl, rfl, by decide⟩

/-- Claim C2 as amended: there is no per-room guard and no shared room
position to guard.  A move submission is validated and applied against the
submitting session's private board only: its effect on that session and the
handler's outcome are identical in any two system states in which that
session's state agrees, regardless of every other session (same room or
not) and of the store contents. -/
theorem c2_move_application_is_session_local {B F : Type} (R : Rules B F)
    (env : Env B) (st st' : SystemState B F) (sid : SessionId)
    (move : String) (h : st.sessions sid = st'.sessions sid) :
    (systemReceive R env st sid move).1.sessions sid =
      (systemReceive R env st' sid move).1.sessions sid ∧
    (systemReceive R env st sid move).2 =
      (systemReceive R env st' sid move).2 := by
  unfold systemReceive
  rw [← h]
  cases hs : st.sessions sid with
  | none => exact ⟨h, rfl⟩
  | some s =>
    have hi := receive_store_indep R env s move st.store st'.store
    constructor
    · have h1 : (receive R env s st.store move).session =
          (receive R env s st'.store move).session := congrArg Prod.fst hi
      simp [h1]
    · exact congrArg (fun p => p.2.2.2) hi

/-- Witness for the amended C2: session 0's "e4" plays out identically in
the two-session room and in a one-session copy of it. -/
def sys1W : SystemState (List String) (List String) :=
  connect toyRulesW (emptySystem (List String) (List String)) 0 "r"

theorem c2_move_application_is_session_local_witness :
    (systemReceive toyRulesW envOk sys2W 0 "e4").1.sessions 0 =
      (systemReceive toyRulesW envOk sys1W 0 "e4").1.sessions 0 ∧
    (systemReceive toyRulesW envOk sys2W 0 "e4").2 =
      (systemReceive toyRulesW envOk sys1W 0 "e4").2 :=
  c2_move_application_is_session_local toyRulesW envOk sys2W sys1W 0 "e4"
    rfl

/-- Claim C4 (code bug, evaluated at the failing input): `bot_move` has no
exception handling, so when the engine times out after the player's "e4"
hands the turn to black, the position and the messages already sent reflect
only the player's move (no further state change, no extra broadcast) — but
the `EngineError` propagates uncaught out of `receive` instead of being
logged as a non-fatal event. -/
theorem c4_engine_failure_uncaught :
    (receive toyRules envTimeout { room := "r", board := [] }
        (fun _ => none) "e4").result =
      Except.error (RunErr.engine EngineError.timeout) ∧
    (receive toyRules envTimeout { room := "r", board := [] }
        (fun _ => none) "e4").session.board = ["e4"] ∧
    (receive toyRules envTimeout { room := "r", board := [] }
        (fun _ => none) "e4").sent = [gameState toyRules ["e4"]] ∧
    (receive toyRules envTimeout { room := "r", board := [] }
        (fun _ => none) "e4").store "r" = some ["e4"] := by
  refine ⟨rfl, rfl, rfl, by decide⟩

/-- Counterexample to claim C5: with the stored position `[]` and the board
at `[]`, a store failure while persisting "e4" leaves the in-memory board
already advanced to `["e4"]` while the store still holds `[]`: the code
commits to memory before persisting and does not roll back, so a
persistence failure does leave the in-memory position diverged from what
was durably stored. -/
def c5store : Store (List String) :=
  fun r => if r = "r" then some [] else none

theorem c5_divergence_counterexample :
    (receive toyRulesW envStoreFail { room := "r", board := [] }
        c5store "e4").result =
      Except.error (RunErr.store StoreError.failure) ∧
    (receive toyRulesW envStoreFail { room := "r", board := [] }
        c5store "e4").session.board = ["e4"] ∧
    (receive toyRulesW envStoreFail { room := "r", board := [] }
        c5store "e4").store "r" = some [] ∧
    toyRulesW.fen ["e4"] ≠ ([] : List String) := by
  refine ⟨rfl, rfl, by decide, by decide⟩

/-- Claim C5 as amended: the update order is validate-and-commit-in-memory
(`push_san` mutates `self.board`), then persist, then broadcast.  A
persistence failure propagates as an uncaught exception with the in-memory
board already advanced to the new position, the store unchanged and nothing
broadcast — there is no rollback, so memory and store diverge. -/
theorem c5_store_failure_leaves_memory_ahead {B F : Type} (R : Rules B F)
    (env : Env B) (s : SessionState B) (st : Store F) (move : String)
    (b1 : B) (hp : R.push_san s.board move = some b1)
    (hst : env.storeOk = false) :
    (receive R env s st move).session.board = b1 ∧
    (receive R env s st move).store = st ∧
    (receive R env s st move).sent = [] ∧
    (receive R env s st move).result =
      Except.error (RunErr.store StoreError.failure) := by
  simp [receive, hp, hst]

/-- Witness for the amended C5: the concrete C5 scenario, through the
general theorem. -/
theorem c5_store_failure_leaves_memory_ahead_witness :
    (receive toyRulesW envStoreFail { room := "r", board := [] }
        (fun _ => none) "e4").session.board = ["e4"] ∧
    (receive toyRulesW envStoreFail { room := "r", board := [] }
        (fun _ => none) "e4").store = (fun _ => none) ∧
    (receive toyRulesW envStoreFail { room := "r", board := [] }
        (fun _ => none) "e4").sent = [] ∧
    (receive toyRulesW envStoreFail { room := "r", board := [] }
        (fun _ => none) "e4").result =
      Except.error (RunErr.store StoreError.failure) :=
  c5_store_failure_leaves_memory_ahead toyRulesW envStoreFail
    { room := "r", board := [] } (fun _ => none) "e4" ["e4"] rfl rfl

/-- Counterexample to claim C6: a player move that ends the game (as a
checkmate by white does; then `board.turn == chess.BLACK` and
`board.is_game_over()` is true) still triggers `bot_move` — the code checks
only `board.turn == chess.BLACK` — so the engine is invoked on a terminal
position, where it fails with no legal move. -/
def envMate : Env (List String) :=
  { storeOk := true, engine := fun _ => .error .noLegalMove }

theorem c6_engine_invoked_on_terminal_counterexample :
    toyRulesMate.push_san [] "e4" = some ["e4"] ∧
    toyRulesMate.is_game_over ["e4"] = true ∧
    toyRulesMate.turn ["e4"] = Side.black ∧
    (receive toyRulesMate envMate { room := "r", board := [] }
        (fun _ => none) "e4").bot = true ∧
    (receive toyRulesMate envMate { room := "r", board := [] }
        (fun _ => none) "e4").result =
      Except.error (RunErr.engine EngineError.noLegalMove) := by
  refine ⟨rfl, rfl, rfl, rfl, rfl⟩

/-- Claim C6 as amended: after a successfully applied and persisted player
move, `bot_move` is entered if and only if the side-to-move is black (the
designated non-human side) — with no terminality check, so the engine is
invoked even when the resulting position is terminal. -/
theorem c6_bot_triggered_iff_black {B F : Type} (R : Rules B F)
    (env : Env B) (s : SessionState B) (st : Store F) (move : String)
    (b1 : B) (hp : R.push_san s.board move = some b1)
    (ho : env.storeOk = true) :
    (receive R env s st move).bot = true ↔ R.turn b1 = Side.black := by
  unfold receive
  rw [hp]
  by_cases ht : R.turn b1 = Side.black
  · cases he : env.engine b1 <;> simp [ho, ht, he]
  · simp [ho, ht]

/-- Witness for the amended C6: "e4" from the starting position hands the
turn to black, and `bot_move` is indeed entered. -/
theorem c6_bot_triggered_iff_black_witness :
    (receive toyRules envOk { room := "r", board := [] }
        (fun _ => none) "e4").bot = true ↔
      toyRules.turn ["e4"] = Side.black :=
  c6_bot_triggered_iff_black toyRules envOk { room := "r", board := [] }
    (fun _ => none) "e4" ["e4"] rfl rfl
